import Mathlib

/-!
Shallow embedding of the calculation pipeline of `simulador_leilao.py`
(real-estate auction feasibility simulator) and proofs about it.

The five pipeline stages are embedded as pure functions:
acquisition costs, capital structure, amortized-loan simulation,
sale profit, and return metrics.  Monetary arithmetic is modelled over
`ℚ`; the loan simulator, whose monthly rate is the real 12th root
`(1 + annual)^(1/12) - 1`, is modelled over `ℝ`.  The external library
functions `npf.pmt` and `npf.fv` (numpy-financial) are embedded by their
closed-form definitions; the iterative root finder `npf.irr` is modelled
as an abstract solver parameter whose outcome type `ResultadoIrr`
follows the library's documented signalling: a finite float, the float
`nan` (its no-solution signal, which the caller's `is not None` and
`except` guards do not catch), a `None` result, or a raised
`ValueError`/`TypeError`.
-/

namespace Simulador

/-- Constant `TAXA_ITBI = 0.04` of the source. -/
def TAXA_ITBI : ℚ := 4 / 100

/-- Constant `TAXA_ESCRITURA = 0.03` of the source. -/
def TAXA_ESCRITURA : ℚ := 3 / 100

/-- Constant `TAXA_FUNDOS = 0.01` of the source. -/
def TAXA_FUNDOS : ℚ := 1 / 100

/-- Constant `TAXA_REGISTRO = 0.03` of the source. -/
def TAXA_REGISTRO : ℚ := 3 / 100

/-- Constant `TAXA_COMISSAO_VENDA = 0.05` of the source. -/
def TAXA_COMISSAO_VENDA : ℚ := 5 / 100

/-- Constant `TAXA_IR_GCAP = 0.15` of the source. -/
def TAXA_IR_GCAP : ℚ := 15 / 100

/-- Result record of `calcular_custos_aquisicao`. -/
structure CustosAquisicao where
  itbi : ℚ
  escritura : ℚ
  fundos : ℚ
  registro : ℚ
  total_taxas : ℚ
  comissao_leiloeiro : ℚ
  custo_total_ativo : ℚ
  deriving Repr, DecidableEq

/-- Stage 1, `calcular_custos_aquisicao` (source lines 169-214): fixed-rate
charges on the bid price, auctioneer commission, and total asset cost. -/
def calcular_custos_aquisicao (lance taxa_leiloeiro_pct reforma_extras : ℚ) :
    CustosAquisicao :=
  let itbi := lance * TAXA_ITBI
  let escritura := lance * TAXA_ESCRITURA
  let fundos := lance * TAXA_FUNDOS
  let registro := lance * TAXA_REGISTRO
  let total_taxas := itbi + escritura + fundos + registro
  let comissao_leiloeiro := lance * taxa_leiloeiro_pct
  let custo_total_ativo := lance + total_taxas + comissao_leiloeiro + reforma_extras
  { itbi := itbi
    escritura := escritura
    fundos := fundos
    registro := registro
    total_taxas := total_taxas
    comissao_leiloeiro := comissao_leiloeiro
    custo_total_ativo := custo_total_ativo }

/-- Result record of `calcular_estrutura_capital`. -/
structure EstruturaCapital where
  valor_entrada : ℚ
  valor_financiado : ℚ
  capital_proprio_investido : ℚ
  deriving Repr, DecidableEq

/-- Stage 2, `calcular_estrutura_capital` (source lines 217-246): down
payment, financed amount and own capital invested. -/
def calcular_estrutura_capital
    (lance entrada_pct total_taxas comissao_leiloeiro reforma_extras : ℚ) :
    EstruturaCapital :=
  let valor_entrada := lance * entrada_pct
  let valor_financiado := lance - valor_entrada
  let capital_proprio_investido :=
    valor_entrada + total_taxas + comissao_leiloeiro + reforma_extras
  { valor_entrada := valor_entrada
    valor_financiado := valor_financiado
    capital_proprio_investido := capital_proprio_investido }

/-- Pipeline glue of source lines 583-601: when interest accounting is
disabled the pipeline calls `calcular_estrutura_capital` with a forced
down-payment fraction of `1.0`, otherwise with the user fraction. -/
def pipeline_estrutura_capital
    (lance entrada_pct total_taxas comissao_leiloeiro reforma_extras : ℚ)
    (considerar_juros : Bool) : EstruturaCapital :=
  if considerar_juros = false then
    calcular_estrutura_capital lance 1 total_taxas comissao_leiloeiro reforma_extras
  else
    calcular_estrutura_capital lance entrada_pct total_taxas comissao_leiloeiro
      reforma_extras

/-- Result record of `calcular_custos_financiamento`. -/
structure CustosFinanciamento where
  prestacao_mensal : ℝ
  total_prestacoes_pagas : ℝ
  saldo_devedor : ℝ
  juros_pagos_no_giro : ℝ
  amortizacao_no_giro : ℝ

/-- The all-zero loan record returned when financing is disabled or the
financed amount is zero (source lines 270-277). -/
noncomputable def zeroFinanciamento : CustosFinanciamento :=
  { prestacao_mensal := 0
    total_prestacoes_pagas := 0
    saldo_devedor := 0
    juros_pagos_no_giro := 0
    amortizacao_no_giro := 0 }

/-- Closed form of `numpy_financial.pmt(rate, nper, pv)` with `fv = 0` and
payments at period end: `-(fv + pv*(1+rate)^nper) / fact` where `fact` is
`nper` when `rate = 0` and `((1+rate)^nper - 1)/rate` otherwise. -/
noncomputable def npf_pmt (rate : ℝ) (nper : ℕ) (pv : ℝ) : ℝ :=
  let temp := (1 + rate) ^ nper
  let fact := if rate = 0 then (nper : ℝ) else (temp - 1) / rate
  (-(pv * temp) / fact)

/-- Closed form of `numpy_financial.fv(rate, nper, pmt, pv)` with payments
at period end: `-(pv*(1+rate)^nper + pmt*fact)` with `fact` as in
`npf_pmt`. -/
noncomputable def npf_fv (rate : ℝ) (nper : ℕ) (pmt pv : ℝ) : ℝ :=
  let temp := (1 + rate) ^ nper
  let fact := if rate = 0 then (nper : ℝ) else (temp - 1) / rate
  (-(pv * temp + pmt * fact))

open Classical in
/-- Stage 3, `calcular_custos_financiamento` (source lines 249-313): PRICE
(constant-installment) loan simulation over the holding period.  Returns
all zeros when the flag is off or the financed amount is zero; otherwise
uses the monthly rate `(1 + annual)^(1/12) - 1`, the `npf.pmt` installment
over the full term, and the `npf.fv` remaining balance after the holding
period, floored at zero. -/
noncomputable def calcular_custos_financiamento
    (valor_financiado taxa_juros_anual : ℝ)
    (prazo_total_meses tempo_giro_meses : ℕ)
    (considerar_juros : Bool) : CustosFinanciamento :=
  if considerar_juros = false ∨ valor_financiado = 0 then
    zeroFinanciamento
  else
    let taxa_mensal := (1 + taxa_juros_anual) ^ ((1 : ℝ) / 12) - 1
    let pmt := npf_pmt taxa_mensal prazo_total_meses valor_financiado
    let prestacao_mensal := -pmt
    let total_prestacoes_pagas := prestacao_mensal * (tempo_giro_meses : ℝ)
    let fv := npf_fv taxa_mensal tempo_giro_meses pmt valor_financiado
    let saldo_devedor := max 0 (-fv)
    let amortizacao_no_giro := valor_financiado - saldo_devedor
    let juros_pagos_no_giro := total_prestacoes_pagas - amortizacao_no_giro
    { prestacao_mensal := prestacao_mensal
      total_prestacoes_pagas := total_prestacoes_pagas
      saldo_devedor := saldo_devedor
      juros_pagos_no_giro := juros_pagos_no_giro
      amortizacao_no_giro := amortizacao_no_giro }

/-- Result record of `calcular_lucros`. -/
structure Lucros where
  comissao_venda : ℚ
  itbi_venda : ℚ
  escritura_venda : ℚ
  registro_venda : ℚ
  total_custos_transferencia : ℚ
  custos_transferencia_vendedor : ℚ
  receita_liquida_venda : ℚ
  lucro_bruto : ℚ
  ir_gcap : ℚ
  lucro_liquido : ℚ
  quem_paga : String
  saldo_devedor_quitado : ℚ
  deriving Repr, DecidableEq

/-- Stage 4, `calcular_lucros` (source lines 315-393): sale commission,
resale transfer costs, net proceeds (branching on the payer string),
gross profit, capital-gains tax and net profit. -/
def calcular_lucros
    (revenda capital_proprio_investido saldo_devedor juros_pagos_no_giro : ℚ)
    (quem_paga_custos_venda : String) : Lucros :=
  let comissao_venda := revenda * TAXA_COMISSAO_VENDA
  let itbi_venda := revenda * TAXA_ITBI
  let escritura_venda := revenda * TAXA_ESCRITURA
  let registro_venda := revenda * TAXA_REGISTRO
  let total_custos_transferencia := itbi_venda + escritura_venda + registro_venda
  let receita_liquida_venda :=
    if quem_paga_custos_venda = "Comprador" then
      revenda - comissao_venda - saldo_devedor
    else
      revenda - comissao_venda - total_custos_transferencia - saldo_devedor
  let custos_transferencia_vendedor :=
    if quem_paga_custos_venda = "Comprador" then 0 else total_custos_transferencia
  let lucro_bruto :=
    receita_liquida_venda - capital_proprio_investido - juros_pagos_no_giro
  let ir_gcap := if lucro_bruto > 0 then lucro_bruto * TAXA_IR_GCAP else 0
  let lucro_liquido := lucro_bruto - ir_gcap
  { comissao_venda := comissao_venda
    itbi_venda := itbi_venda
    escritura_venda := escritura_venda
    registro_venda := registro_venda
    total_custos_transferencia := total_custos_transferencia
    custos_transferencia_vendedor := custos_transferencia_vendedor
    receita_liquida_venda := receita_liquida_venda
    lucro_bruto := lucro_bruto
    ir_gcap := ir_gcap
    lucro_liquido := lucro_liquido
    quem_paga := quem_paga_custos_venda
    saldo_devedor_quitado := saldo_devedor }

/-- Independent cash-flow reconciliation of source lines 804-806:
`total_entradas - total_saidas - ir_gcap` with
`total_saidas = capital_proprio_investido + juros_pagos_no_giro` and
`total_entradas = revenda - comissao_venda - custos_transferencia_vendedor
- saldo_devedor`. -/
def lucro_calculado_metodo1
    (revenda capital_proprio_investido saldo_devedor juros_pagos_no_giro : ℚ)
    (quem_paga_custos_venda : String) : ℚ :=
  let lucros :=
    calcular_lucros revenda capital_proprio_investido saldo_devedor
      juros_pagos_no_giro quem_paga_custos_venda
  let total_saidas := capital_proprio_investido + juros_pagos_no_giro
  let total_entradas :=
    revenda - lucros.comissao_venda - lucros.custos_transferencia_vendedor
      - saldo_devedor
  total_entradas - total_saidas - lucros.ir_gcap

/-- Result of a call to the external solver `npf.irr`, as the caller at
source lines 421-425 can observe it.  Modelled from the documented
semantics of `numpy_financial.irr`: the solver returns a float — either
a finite value (`valor`) or the float `nan`, its no-solution signal —
and on bad arguments may raise (`excecao`, the `ValueError`/`TypeError`
the caller catches); `nenhum` stands for a `None` return, which the
caller tests for at source line 423 although `npf.irr` never produces
one. -/
inductive ResultadoIrr where
  | valor (t : ℚ)
  | nan
  | nenhum
  | excecao
  deriving Repr, DecidableEq

/-- Value of the field `tir_anual`: Python `None` (`nenhum`, rendered
"Inválida" by the display layer), the float `nan` (rendered "nan%"), or
a finite float. -/
inductive ValorTir where
  | nenhum
  | nan
  | valor (t : ℚ)
  deriving Repr, DecidableEq

/-- Result record of `calcular_metricas_financeiras`.  `none` in `roi`
and `roe` stands for the source's `None` ("N/A"). -/
structure Metricas where
  roi : Option ℚ
  roe : Option ℚ
  tir_anual : ValorTir
  deriving Repr, DecidableEq

/-- The cash-flow series built at source line 420:
`[-total_investido] + [0]*(meses-1) + [total_investido + lucro_liquido]`. -/
def fluxo_caixa (total_investido lucro_liquido : ℚ) (meses : ℕ) : List ℚ :=
  [-total_investido] ++ List.replicate (meses - 1) 0 ++
    [total_investido + lucro_liquido]

/-- Stage 5, `calcular_metricas_financeiras` (source lines 395-431): ROI
and ROE with guarded denominators, and the annualized IRR of the
cash-flow series.  The `tir_anual` branches mirror the caller exactly:
a caught exception (line 424) or a `None` result (line 423) yields
`None`; a finite solver value `t` is annualized to
`((1 + t)^12 - 1) * 100`; and the solver's `nan` passes the
`is not None` test at line 423, after which IEEE arithmetic propagates
it through the annualization, so `tir_anual` is the float `nan`. -/
def calcular_metricas_financeiras (irr : List ℚ → ResultadoIrr)
    (lucro_liquido custo_total_ativo total_investido : ℚ) (meses : ℕ) :
    Metricas :=
  let roi :=
    if custo_total_ativo ≠ 0 then some (lucro_liquido / custo_total_ativo * 100)
    else none
  let roe :=
    if total_investido ≠ 0 then some (lucro_liquido / total_investido * 100)
    else none
  let fluxo := fluxo_caixa total_investido lucro_liquido meses
  let tir_anual :=
    match irr fluxo with
    | ResultadoIrr.excecao => ValorTir.nenhum
    | ResultadoIrr.nenhum => ValorTir.nenhum
    | ResultadoIrr.nan => ValorTir.nan
    | ResultadoIrr.valor t => ValorTir.valor (((1 + t) ^ 12 - 1) * 100)
  { roi := roi, roe := roe, tir_anual := tir_anual }

/-- The solver behavior `numpy_financial.irr` documents for a series
whose NPV polynomial has no admissible (positive real) root: return the
float `nan`.  Used to evaluate the stage on such inputs. -/
def irrNan : List ℚ → ResultadoIrr := fun _ => ResultadoIrr.nan

end Simulador

/-- C7: for every bid price `P` and down-payment fraction `f ∈ [0,1]`, the
capital-structure stage returns down payment `P * f`, financed amount
`P - P * f`, and the two sum back to `P` exactly. -/
theorem C7_capital_structure (P f taxas comissao extras : ℚ)
    (h0 : 0 ≤ f) (h1 : f ≤ 1) :
    (Simulador.calcular_estrutura_capital P f taxas comissao extras).valor_entrada
        = P * f ∧
    (Simulador.calcular_estrutura_capital P f taxas comissao extras).valor_financiado
        = P - P * f ∧
    (Simulador.calcular_estrutura_capital P f taxas comissao extras).valor_entrada
        + (Simulador.calcular_estrutura_capital P f taxas comissao
            extras).valor_financiado = P := by
  refine ⟨rfl, rfl, ?_⟩
  simp [Simulador.calcular_estrutura_capital]

/-- Witness for C7 at `P = 100`, `f = 1/4`. -/
theorem C7_capital_structure_witness :
    (0 : ℚ) ≤ 1 / 4 ∧ (1 : ℚ) / 4 ≤ 1 ∧
    (Simulador.calcular_estrutura_capital 100 (1 / 4) 11 0 12).valor_entrada
        + (Simulador.calcular_estrutura_capital 100 (1 / 4) 11 0
            12).valor_financiado = 100 :=
  ⟨by norm_num, by norm_num,
    (C7_capital_structure 100 (1 / 4) 11 0 12 (by norm_num) (by norm_num)).2.2⟩

/-- C1: for every input, the net profit of the direct pipeline
(`calcular_lucros`, field `lucro_liquido`) agrees with the independent
cash-flow reconciliation `lucro_calculado_metodo1`
(inflows − outflows − capital-gains tax) within 0.01 currency units; in
the rational model the two are in fact exactly equal. -/
theorem C1_cross_validation (S C B I : ℚ) (q : String) :
    |Simulador.lucro_calculado_metodo1 S C B I q
        - (Simulador.calcular_lucros S C B I q).lucro_liquido| < 1 / 100 := by
  have h : Simulador.lucro_calculado_metodo1 S C B I q
      = (Simulador.calcular_lucros S C B I q).lucro_liquido := by
    by_cases hq : q = "Comprador" <;>
      simp only [Simulador.lucro_calculado_metodo1, Simulador.calcular_lucros,
        if_pos, if_neg, hq, if_true, if_false] <;>
      split_ifs <;> ring
  rw [h]
  simp

/-- C8: two sale-profit runs identical except for the transfer-cost
payer: the buyer-pays run has a zero seller transfer-cost share, and its
net proceeds and gross profit each exceed the seller-pays run's by
exactly the resale transfer costs `S * (4% + 3% + 3%)`. -/
theorem C8_buyer_vs_seller (S C B I : ℚ) :
    (Simulador.calcular_lucros S C B I "Comprador").custos_transferencia_vendedor
        = 0 ∧
    (Simulador.calcular_lucros S C B I "Comprador").receita_liquida_venda
        - (Simulador.calcular_lucros S C B I "Vendedor").receita_liquida_venda
        = S * (4 / 100 + 3 / 100 + 3 / 100) ∧
    (Simulador.calcular_lucros S C B I "Comprador").lucro_bruto
        - (Simulador.calcular_lucros S C B I "Vendedor").lucro_bruto
        = S * (4 / 100 + 3 / 100 + 3 / 100) := by
  refine ⟨?_, ?_, ?_⟩ <;>
    simp [Simulador.calcular_lucros, Simulador.TAXA_ITBI,
      Simulador.TAXA_ESCRITURA, Simulador.TAXA_REGISTRO,
      Simulador.TAXA_COMISSAO_VENDA] <;>
    ring1

/-- C9: in every sale-profit computation the capital-gains tax is 15% of
the gross profit when that is positive and 0 otherwise, and the net
profit is the gross profit minus the tax. -/
theorem C9_capital_gains_tax (S C B I : ℚ) (q : String) :
    (0 < (Simulador.calcular_lucros S C B I q).lucro_bruto →
      (Simulador.calcular_lucros S C B I q).ir_gcap
        = (Simulador.calcular_lucros S C B I q).lucro_bruto * (15 / 100)) ∧
    ((Simulador.calcular_lucros S C B I q).lucro_bruto ≤ 0 →
      (Simulador.calcular_lucros S C B I q).ir_gcap = 0) ∧
    (Simulador.calcular_lucros S C B I q).lucro_liquido
      = (Simulador.calcular_lucros S C B I q).lucro_bruto
        - (Simulador.calcular_lucros S C B I q).ir_gcap := by
  refine ⟨?_, ?_, rfl⟩ <;>
    · intro h
      simp only [Simulador.calcular_lucros, Simulador.TAXA_IR_GCAP] at h ⊢
      split_ifs at h ⊢ <;> first | linarith | ring1

/-- Witness for C9: a concrete profitable scenario
(`S = 200`, `C = 10`, no debt, no interest, seller pays). -/
theorem C9_capital_gains_tax_witness :
    0 < (Simulador.calcular_lucros 200 10 0 0 "Vendedor").lucro_bruto ∧
    (Simulador.calcular_lucros 200 10 0 0 "Vendedor").ir_gcap
      = (Simulador.calcular_lucros 200 10 0 0 "Vendedor").lucro_bruto
        * (15 / 100) := by
  have hpos : 0 < (Simulador.calcular_lucros 200 10 0 0 "Vendedor").lucro_bruto := by
    simp only [Simulador.calcular_lucros, Simulador.TAXA_COMISSAO_VENDA,
      Simulador.TAXA_ITBI, Simulador.TAXA_ESCRITURA, Simulador.TAXA_REGISTRO,
      Simulador.TAXA_IR_GCAP, String.reduceEq, reduceIte]
    norm_num
  exact ⟨hpos, (C9_capital_gains_tax 200 10 0 0 "Vendedor").1 hpos⟩

/-- C10: the sale-profit stage branches only on the exact string
"Comprador": any other payer value behaves as seller-pays, with the
seller transfer-cost share equal to the full resale transfer costs and
those costs deducted from the net proceeds. -/
theorem C10_payer_branch (S C B I : ℚ) (q : String) (hq : q ≠ "Comprador") :
    (Simulador.calcular_lucros S C B I q).custos_transferencia_vendedor
        = (Simulador.calcular_lucros S C B I q).total_custos_transferencia ∧
    (Simulador.calcular_lucros S C B I q).receita_liquida_venda
        = S - (Simulador.calcular_lucros S C B I q).comissao_venda
          - (Simulador.calcular_lucros S C B I q).total_custos_transferencia
          - B ∧
    (Simulador.calcular_lucros S C B I q).lucro_liquido
        = (Simulador.calcular_lucros S C B I "Vendedor").lucro_liquido := by
  refine ⟨?_, ?_, ?_⟩ <;> simp [Simulador.calcular_lucros, hq]

/-- Witness for C10 with the payer string "Banco", which is neither
"Comprador" nor "Vendedor". -/
theorem C10_payer_branch_witness :
    ("Banco" : String) ≠ "Comprador" ∧
    (Simulador.calcular_lucros 200 10 0 0 "Banco").custos_transferencia_vendedor
      = (Simulador.calcular_lucros 200 10 0 0 "Banco").total_custos_transferencia :=
  ⟨by decide, (C10_payer_branch 200 10 0 0 "Banco" (by decide)).1⟩

/-- Counterexample to C2 as stated: at holding period `H = 6` (with total
capital 100 and net profit 50) the cash-flow series the code builds has
length 7, not the claimed length `H = 6`. -/
theorem C2_length_counterexample :
    (Simulador.fluxo_caixa 100 50 6).length ≠ 6 ∧
    (Simulador.fluxo_caixa 100 50 6).length = 7 := by
  constructor <;> simp [Simulador.fluxo_caixa]

/-- C2 (amended): for every `H ≥ 1` the return-metrics stage builds a
cash-flow series of length `H + 1` — first entry `-(total capital
deployed)`, the `H - 1` middle entries `0`, and last entry (index `H`)
`total capital deployed + net profit` — and hands that series to the
IRR solver, annualizing a finite periodic IRR `t` as
`((1 + t)^12 - 1) * 100`. -/
theorem C2_cash_flow_series (irr : List ℚ → Simulador.ResultadoIrr)
    (L C T : ℚ) (H : ℕ) (hH : 1 ≤ H) :
    (Simulador.fluxo_caixa T L H).length = H + 1 ∧
    (Simulador.fluxo_caixa T L H).head? = some (-T) ∧
    (∀ i, 1 ≤ i → i ≤ H - 1 → (Simulador.fluxo_caixa T L H).getD i 0 = 0) ∧
    (Simulador.fluxo_caixa T L H).getD H 0 = T + L ∧
    (Simulador.calcular_metricas_financeiras irr L C T H).tir_anual
      = (match irr (Simulador.fluxo_caixa T L H) with
        | Simulador.ResultadoIrr.excecao => Simulador.ValorTir.nenhum
        | Simulador.ResultadoIrr.nenhum => Simulador.ValorTir.nenhum
        | Simulador.ResultadoIrr.nan => Simulador.ValorTir.nan
        | Simulador.ResultadoIrr.valor t =>
            Simulador.ValorTir.valor (((1 + t) ^ 12 - 1) * 100)) := by
  refine ⟨?_, ?_, ?_, ?_, rfl⟩
  · simp [Simulador.fluxo_caixa]
    omega
  · simp [Simulador.fluxo_caixa]
  · intro i h1 h2
    obtain ⟨j, rfl⟩ : ∃ j, i = j + 1 := ⟨i - 1, by omega⟩
    have hrw : Simulador.fluxo_caixa T L H
        = -T :: (List.replicate (H - 1) 0 ++ [T + L]) := by
      simp [Simulador.fluxo_caixa]
    rw [hrw, List.getD_cons_succ]
    rw [List.getD_append]
    · rw [List.getD_eq_getElem?_getD, List.getElem?_replicate, if_pos (by omega)]
      rfl
    · simp only [List.length_replicate]
      omega
  · obtain ⟨j, rfl⟩ : ∃ j, H = j + 1 := ⟨H - 1, by omega⟩
    have hrw : Simulador.fluxo_caixa T L (j + 1)
        = -T :: (List.replicate j 0 ++ [T + L]) := by
      simp [Simulador.fluxo_caixa]
    rw [hrw, List.getD_cons_succ, List.getD_append_right]
    · simp
    · simp

/-- Witness for C2 (amended) at `H = 3`, total capital 100, net profit
50: the series has length 4. -/
theorem C2_cash_flow_series_witness :
    1 ≤ 3 ∧ (Simulador.fluxo_caixa 100 50 3).length = 3 + 1 :=
  ⟨by norm_num,
    (C2_cash_flow_series Simulador.irrNan 50 2 100 3 (by norm_num)).1⟩

/-- C3: demonstration of the bug the claim misses.  At a reachable
heavy-loss input — total capital deployed 100, net profit -150, total
acquisition cost 150, holding period 6 — the series is
`[-100, 0, 0, 0, 0, 0, -50]`, and `npf.irr`'s documented no-solution
signal for it is the float `nan` (no positive real root).  `nan` is not
`None` and raises nothing, so the guards at source lines 423-424 pass
it through and the annualization turns it into a non-numeric
`tir_anual = nan` ("nan%"), not the explicit unavailable value; the
ROI/ROE guards meanwhile work as claimed at the same input. -/
theorem C3_nan_propagation :
    (Simulador.calcular_metricas_financeiras Simulador.irrNan
        (-150) 150 100 6).tir_anual = Simulador.ValorTir.nan ∧
    (Simulador.calcular_metricas_financeiras Simulador.irrNan
        (-150) 150 100 6).tir_anual ≠ Simulador.ValorTir.nenhum ∧
    (Simulador.calcular_metricas_financeiras Simulador.irrNan
        (-150) 150 100 6).roi = some (-150 / 150 * 100) ∧
    (Simulador.calcular_metricas_financeiras Simulador.irrNan
        (-150) 150 100 6).roe = some (-150 / 100 * 100) := by
  refine ⟨rfl, ?_, ?_, ?_⟩
  · intro h
    exact absurd h (by simp [Simulador.calcular_metricas_financeiras,
      Simulador.irrNan])
  · simp [Simulador.calcular_metricas_financeiras]
  · simp [Simulador.calcular_metricas_financeiras]

/-- C4: the loan simulator returns the all-zero record whenever the
interest flag is off or the financed amount is 0; the pipeline forces a
down-payment fraction of 1 when the flag is off; and a fraction of 1
makes the financed amount 0, hence all loan outputs zero regardless of
flag and rate. -/
theorem C4_disabled_or_zero (F r : ℝ) (N H : ℕ) (flag : Bool)
    (P f taxas comissao extras : ℚ) :
    ((flag = false ∨ F = 0) →
      Simulador.calcular_custos_financiamento F r N H flag
        = Simulador.zeroFinanciamento) ∧
    Simulador.pipeline_estrutura_capital P f taxas comissao extras false
      = Simulador.calcular_estrutura_capital P 1 taxas comissao extras ∧
    (Simulador.calcular_estrutura_capital P 1 taxas comissao
        extras).valor_financiado = 0 ∧
    Simulador.calcular_custos_financiamento
        (((Simulador.calcular_estrutura_capital P 1 taxas comissao
            extras).valor_financiado : ℚ) : ℝ) r N H flag
      = Simulador.zeroFinanciamento := by
  have hz : (Simulador.calcular_estrutura_capital P 1 taxas comissao
      extras).valor_financiado = 0 := by
    simp [Simulador.calcular_estrutura_capital]
  refine ⟨?_, rfl, hz, ?_⟩
  · intro h
    simp only [Simulador.calcular_custos_financiamento, if_pos h]
  · rw [hz]
    simp only [Simulador.calcular_custos_financiamento]
    rw [if_pos (Or.inr (by norm_num))]

/-- Witness for C4 with the flag off (`F = 5`, rate 0, term 12, holding
6) and a concrete capital-structure input (`P = 100`, `f = 1/2`). -/
theorem C4_disabled_or_zero_witness :
    ((false = false ∨ (5 : ℝ) = 0) ∧
      Simulador.calcular_custos_financiamento 5 0 12 6 false
        = Simulador.zeroFinanciamento) ∧
    Simulador.pipeline_estrutura_capital 100 (1 / 2) 11 0 12 false
      = Simulador.calcular_estrutura_capital 100 1 11 0 12 ∧
    (Simulador.calcular_estrutura_capital 100 1 11 0 12).valor_financiado = 0 ∧
    Simulador.calcular_custos_financiamento
        (((Simulador.calcular_estrutura_capital 100 1 11 0
            12).valor_financiado : ℚ) : ℝ) 0 12 6 false
      = Simulador.zeroFinanciamento := by
  have h := C4_disabled_or_zero 5 0 12 6 false 100 (1 / 2) 11 0 12
  exact ⟨⟨Or.inl rfl, h.1 (Or.inl rfl)⟩, h.2.1, h.2.2.1, h.2.2.2⟩

/-- C5: with the flag on and `F ≠ 0` the simulator uses the monthly rate
`rm = (1 + r)^(1/12) - 1`; for `rm ≠ 0` the installment is the annuity
payment `F * rm / (1 - (1 + rm)^(-N))`, and at `r = 0` it is `F / N`
(no division by zero occurs). -/
theorem C5_annuity_payment (F r : ℝ) (N H : ℕ) (hF : F ≠ 0) (hr : 0 ≤ r)
    (hN : 0 < N) :
    ((1 + r) ^ ((1 : ℝ) / 12) - 1 ≠ 0 →
      (Simulador.calcular_custos_financiamento F r N H true).prestacao_mensal
        = F * ((1 + r) ^ ((1 : ℝ) / 12) - 1)
          / (1 - ((1 + ((1 + r) ^ ((1 : ℝ) / 12) - 1)) ^ N)⁻¹)) ∧
    (r = 0 →
      (Simulador.calcular_custos_financiamento F r N H true).prestacao_mensal
        = F / N) := by
  have hcond : ¬((true : Bool) = false ∨ F = 0) := by
    rintro (h | h)
    · exact absurd h (by simp)
    · exact hF h
  constructor
  · intro hrm0
    have hb : (0 : ℝ) < (1 + r) ^ ((1 : ℝ) / 12) :=
      Real.rpow_pos_of_pos (by linarith) _
    have hbase : 1 + ((1 + r) ^ ((1 : ℝ) / 12) - 1) = (1 + r) ^ ((1 : ℝ) / 12) := by
      ring
    have ht : (0 : ℝ) < (1 + ((1 + r) ^ ((1 : ℝ) / 12) - 1)) ^ N := by
      rw [hbase]
      exact pow_pos hb N
    have htne : (1 + ((1 + r) ^ ((1 : ℝ) / 12) - 1)) ^ N ≠ 0 := ne_of_gt ht
    have h1t : 1 - ((1 + ((1 + r) ^ ((1 : ℝ) / 12) - 1)) ^ N)⁻¹
        = ((1 + ((1 + r) ^ ((1 : ℝ) / 12) - 1)) ^ N - 1)
          / (1 + ((1 + r) ^ ((1 : ℝ) / 12) - 1)) ^ N := by
      field_simp
    simp only [Simulador.calcular_custos_financiamento, if_neg hcond,
      Simulador.npf_pmt, if_neg hrm0]
    rw [h1t]
    simp only [neg_div, neg_neg, div_div_eq_mul_div]
    ring_nf
  · intro hr0
    subst hr0
    have hrm0 : (1 + (0 : ℝ)) ^ ((1 : ℝ) / 12) - 1 = 0 := by
      norm_num [Real.one_rpow]
    simp only [Simulador.calcular_custos_financiamento, if_neg hcond,
      Simulador.npf_pmt, if_pos hrm0]
    rw [hrm0]
    norm_num [neg_div]

/-- Witness for C5 at `F = 120`, zero annual rate, term 12, holding 6:
the installment is `120 / 12`. -/
theorem C5_annuity_payment_witness :
    (120 : ℝ) ≠ 0 ∧ (0 : ℝ) ≤ 0 ∧ 0 < 12 ∧
    (Simulador.calcular_custos_financiamento 120 0 12 6 true).prestacao_mensal
      = 120 / 12 :=
  ⟨by norm_num, le_rfl, by norm_num,
    (C5_annuity_payment 120 0 12 6 (by norm_num) le_rfl (by norm_num)).2 rfl⟩

/-- C6: with the flag on and `F > 0`, principal amortized during holding
plus the remaining balance equals `F` exactly (for any `H ≤ N`), and the
remaining balance is never negative (it is floored at zero, for every
`H`, including `H ≥ N`). -/
theorem C6_balance_invariant (F r : ℝ) (N H : ℕ) (hF : 0 < F) :
    (H ≤ N →
      (Simulador.calcular_custos_financiamento F r N H true).amortizacao_no_giro
        + (Simulador.calcular_custos_financiamento F r N H true).saldo_devedor
        = F) ∧
    0 ≤ (Simulador.calcular_custos_financiamento F r N H true).saldo_devedor := by
  have hcond : ¬((true : Bool) = false ∨ F = 0) := by
    rintro (h | h)
    · exact absurd h (by simp)
    · exact hF.ne' h
  constructor
  · intro _
    simp only [Simulador.calcular_custos_financiamento, if_neg hcond]
    ring
  · simp only [Simulador.calcular_custos_financiamento, if_neg hcond]
    exact le_max_left 0 _

/-- Witness for C6 at `F = 120`, zero rate, term 12, holding 6. -/
theorem C6_balance_invariant_witness :
    (0 : ℝ) < 120 ∧ 6 ≤ 12 ∧
    ((Simulador.calcular_custos_financiamento 120 0 12 6 true).amortizacao_no_giro
      + (Simulador.calcular_custos_financiamento 120 0 12 6 true).saldo_devedor
      = 120) ∧
    0 ≤ (Simulador.calcular_custos_financiamento 120 0 12 6 true).saldo_devedor := by
  have h := C6_balance_invariant 120 0 12 6 (by norm_num)
  exact ⟨by norm_num, by norm_num, h.1 (by norm_num), h.2⟩

